import Mathlib

/-!
Verification development for the ai-job-change-tracker repository.

The repository is a LinkedIn crawl-and-diff pipeline.  This file gives a
shallow embedding of its core logic and settles the frozen claims against it:

* data model: the `JobChange` SQLAlchemy row (app.py, lines 46-58) and the
  employee dictionaries produced by the scraper;
* change detector: `process_changes` (run_scraper.py, lines 184-217, and
  .github/workflows/app.py, lines 386-419);
* persistence: `save_job_changes` (run_scraper.py, lines 152-182, and
  app.py, lines 189-219);
* scraper loops: `scrape_company` in scraper.py (lines 111-183, with an
  early break at `max_results`) and in run_scraper.py (lines 98-145, with
  no early break);
* orchestrators: `main` in run_scraper.py (lines 219-277),
  `scrape_multiple_companies` in scraper.py (lines 185-215), and
  `show_scrape_page` in .github/workflows/app.py (lines 288-316).

Timestamps are modelled as `Nat`.  The browser environment is modelled as an
explicit oracle: a function from reveal-step index to the list of rendered
cards (or a raised error), plus booleans for the navigation and tab-click
steps, mirroring exactly the points where the Python code can raise.
-/

namespace JobTracker

/-- Employee dictionary built by `scrape_company` (run_scraper.py lines
130-135): name, company, position, profile_url.  The scraper.py variant adds
a scraped_at timestamp that no claim depends on, so it is omitted. -/
structure Employee where
  name : String
  company : String
  position : String
  profile_url : String
deriving Repr, DecidableEq

/-- Row of the job_changes table (app.py lines 46-58).  The auto-increment
id and the created_at/updated_at audit columns are omitted; `is_new` has
column default `True` and is never passed by any caller. -/
structure JobChange where
  name : String
  company : String
  old_position : Option String
  new_position : String
  change_date : Nat
  profile_url : String
  is_new : Bool
deriving Repr, DecidableEq

/-- Change dictionary emitted by `process_changes` (run_scraper.py lines
198-214): the fields passed on to `save_job_changes`. -/
structure Change where
  name : String
  company : String
  old_position : Option String
  new_position : String
  change_date : Nat
  profile_url : String
deriving Repr, DecidableEq

/-- Identity filter used by both `process_changes` and `save_job_changes`:
`JobChange.name == n, JobChange.company == c, JobChange.profile_url == u`
(run_scraper.py lines 157-161 and 190-194). -/
def matchesKey (n c u : String) (r : JobChange) : Bool :=
  r.name == n && r.company == c && r.profile_url == u

/-- The `.first()` lookup of the unordered identity query: the first matching
row in store order (run_scraper.py lines 190-194). -/
def queryFirst (store : List JobChange) (n c u : String) : Option JobChange :=
  store.find? (matchesKey n c u)

/-- Body of the `process_changes` loop for one employee (run_scraper.py
lines 189-214): look up the first stored row for the identity; emit a change
with `old_position = existing.new_position` when the stored role differs,
emit a first-sighting change with `old_position = None` when no row matches,
emit nothing otherwise.  `now` stands for `datetime.now(timezone.utc)`. -/
def classifyEmployee (store : List JobChange) (now : Nat) (e : Employee) :
    Option Change :=
  match queryFirst store e.name e.company e.profile_url with
  | some existing =>
    if existing.new_position ≠ e.position then
      some { name := e.name, company := e.company,
             old_position := some existing.new_position,
             new_position := e.position, change_date := now,
             profile_url := e.profile_url }
    else
      none
  | none =>
    some { name := e.name, company := e.company, old_position := none,
           new_position := e.position, change_date := now,
           profile_url := e.profile_url }

/-- The `process_changes` function (run_scraper.py lines 184-217): the loop
appends at most one change dictionary per employee, in order; the store is
only read, never written. -/
def processChanges (store : List JobChange) (now : Nat) :
    List Employee → List Change
  | [] => []
  | e :: rest =>
    match classifyEmployee store now e with
    | some ch => ch :: processChanges store now rest
    | none => processChanges store now rest

/-- Row constructed by `save_job_changes` for an inserted change
(run_scraper.py lines 164-171): every explicit column is copied from the
change dictionary and `is_new` is left to its column default `True`. -/
def mkJobChange (c : Change) : JobChange :=
  { name := c.name, company := c.company, old_position := c.old_position,
    new_position := c.new_position, change_date := c.change_date,
    profile_url := c.profile_url, is_new := true }

/-- Rows the `save_job_changes` loop adds to the session for a batch: a
change is inserted exactly when no row in the committed store matches its
identity (run_scraper.py lines 156-172).  The session has autoflush
disabled, so every query in the loop sees the original committed store, not
the rows pending in the same batch. -/
def newInserts (store : List JobChange) : List Change → List JobChange
  | [] => []
  | c :: rest =>
    match queryFirst store c.name c.company c.profile_url with
    | some _ => newInserts store rest
    | none => mkJobChange c :: newInserts store rest

/-- Committed store after a `save_job_changes` call in which no database
operation fails: the single `db.commit()` publishes the whole batch. -/
def savePure (store : List JobChange) (changes : List Change) :
    List JobChange :=
  store ++ newInserts store changes

/-- Database errors that can surface inside `save_job_changes`. -/
inductive StoreError
  | queryFailed
  | commitFailed
deriving Repr, DecidableEq

/-- Failure oracle for one `save_job_changes` call: `queryFailAt = some i`
means the identity query for the i-th change raises; `commitOk = false`
means the final `db.commit()` raises. -/
structure DbEnv where
  queryFailAt : Option Nat
  commitOk : Bool
deriving Repr, DecidableEq

/-- The `save_job_changes` loop (run_scraper.py lines 156-172) threading the
list of rows added to the session, with the failure oracle applied to each
query; `i` is the index of the current change in the batch. -/
def saveLoopE (env : DbEnv) (store : List JobChange) :
    Nat → List JobChange → List Change → Except StoreError (List JobChange)
  | _, pending, [] => Except.ok pending
  | i, pending, c :: rest =>
    if env.queryFailAt = some i then
      Except.error StoreError.queryFailed
    else
      match queryFirst store c.name c.company c.profile_url with
      | some _ => saveLoopE env store (i + 1) pending rest
      | none => saveLoopE env store (i + 1) (pending ++ [mkJobChange c]) rest

/-- The `save_job_changes` function (run_scraper.py lines 152-182): run the
loop, then `db.commit()`; on any exception `db.rollback()` leaves the
committed store unchanged and the exception is re-raised.  Returns the
outcome surfaced to the caller and the committed store afterwards. -/
def saveJobChanges (env : DbEnv) (store : List JobChange)
    (changes : List Change) : Except StoreError Unit × List JobChange :=
  match saveLoopE env store 0 [] changes with
  | Except.error e => (Except.error e, store)
  | Except.ok pending =>
    if env.commitOk then (Except.ok (), store ++ pending)
    else (Except.error StoreError.commitFailed, store)

/-- Whether two stored rows carry the same identity triple. -/
def sameIdentity (a b : JobChange) : Bool :=
  a.name == b.name && a.company == b.company && a.profile_url == b.profile_url

/-- Store invariant assumed by the spec: no two rows share an identity. -/
def uniqueIdentities : List JobChange → Bool
  | [] => true
  | r :: rest => rest.all (fun x => !(sameIdentity r x)) && uniqueIdentities rest

/-- Modelled from the spec: the tie-break lookup of section 4.5 — among the
stored rows matching the identity, the one with the latest `change_date`.
The source has no such ordering; this definition exists to compare the
spec's words with the code's `.first()` lookup. -/
def latestMatch (store : List JobChange) (n c u : String) : Option JobChange :=
  match store with
  | [] => none
  | r :: rest =>
    match latestMatch rest n c u with
    | none => if matchesKey n c u r then some r else none
    | some b =>
      if matchesKey n c u r then
        if b.change_date < r.change_date then some r else some b
      else some b

/-- Modelled from the spec: the classifier of section 4.5 using the
latest-`change_date` baseline instead of the code's first-match baseline. -/
def classifySpec (store : List JobChange) (now : Nat) (e : Employee) :
    Option Change :=
  match latestMatch store e.name e.company e.profile_url with
  | none =>
    some { name := e.name, company := e.company, old_position := none,
           new_position := e.position, change_date := now,
           profile_url := e.profile_url }
  | some r =>
    if r.new_position ≠ e.position then
      some { name := e.name, company := e.company,
             old_position := some r.new_position,
             new_position := e.position, change_date := now,
             profile_url := e.profile_url }
    else
      none

/-- Rendered employee card (selector `.reusable-search__result-container`).
Each field is the result of the corresponding `find_element` lookup inside
the card: `none` means the sub-element is missing and the lookup raises
`NoSuchElementException` (run_scraper.py lines 126-128). -/
structure Card where
  titleText : Option String
  primarySubtitle : Option String
  linkHref : Option String
deriving Repr, DecidableEq

/-- Extraction of one card (run_scraper.py lines 124-137): all three field
lookups must succeed, otherwise the `except NoSuchElementException:
continue` skips the card. -/
def extractCard (company : String) (card : Card) : Option Employee :=
  match card.titleText, card.primarySubtitle, card.linkHref with
  | some n, some p, some u =>
    some { name := n, company := company, position := p, profile_url := u }
  | _, _, _ => none

/-- Errors the crawl body can raise before the `except Exception` handler of
`scrape_company` catches them. -/
inductive ScrapeError
  | navFailed
  | tabFailed
  | stepFailed
deriving Repr, DecidableEq

/-- Browser oracle for one `scrape_company` call: whether `driver.get` on
the company url succeeds, whether the people-tab wait and click succeeds,
and for each reveal step the list of currently rendered cards (or a raised
error from `execute_script` / `find_elements`). -/
structure CrawlEnv where
  navigationOk : Bool
  peopleTabOk : Bool
  pages : Nat → Except ScrapeError (List Card)

/-- Records accumulated so far and the number of reveal steps executed. -/
structure CrawlOut where
  records : List Employee
  steps : Nat
deriving Repr, DecidableEq

/-- Scroll loop of scraper.py `scrape_company` (lines 147-176): each step
re-queries the full rendered card set, extracts every parseable card, and
breaks once `max_results` records have accumulated; the fuel argument is the
number of remaining iterations of `while scroll_count < max_scrolls`. -/
def collectE (c : String) (pages : Nat → Except ScrapeError (List Card))
    (cap : Nat) : Nat → Nat → List Employee → Except ScrapeError CrawlOut
  | 0, k, acc => Except.ok ⟨acc, k⟩
  | fuel + 1, k, acc =>
    match pages k with
    | Except.error e => Except.error e
    | Except.ok cards =>
      let acc2 := acc ++ cards.filterMap (extractCard c)
      if cap ≤ acc2.length then Except.ok ⟨acc2, k + 1⟩
      else collectE c pages cap fuel (k + 1) acc2

/-- Scroll loop of run_scraper.py `scrape_company` (lines 116-139): same as
`collectE` but with no early break — the loop always runs until the fuel
(`max_scrolls`) is exhausted. -/
def collectAllE (c : String) (pages : Nat → Except ScrapeError (List Card)) :
    Nat → Nat → List Employee → Except ScrapeError CrawlOut
  | 0, k, acc => Except.ok ⟨acc, k⟩
  | fuel + 1, k, acc =>
    match pages k with
    | Except.error e => Except.error e
    | Except.ok cards =>
      collectAllE c pages fuel (k + 1) (acc ++ cards.filterMap (extractCard c))

/-- Body of the `try` block of scraper.py `scrape_company` (lines 122-179):
navigate, click the people tab, then run the scroll loop. -/
def crawlResult (c : String) (env : CrawlEnv) (cap ms : Nat) :
    Except ScrapeError CrawlOut :=
  if env.navigationOk = false then Except.error ScrapeError.navFailed
  else if env.peopleTabOk = false then Except.error ScrapeError.tabFailed
  else collectE c env.pages cap ms 0 []

/-- Body of the `try` block of run_scraper.py `scrape_company`
(lines 100-141). -/
def crawlResultRS (c : String) (env : CrawlEnv) (ms : Nat) :
    Except ScrapeError CrawlOut :=
  if env.navigationOk = false then Except.error ScrapeError.navFailed
  else if env.peopleTabOk = false then Except.error ScrapeError.tabFailed
  else collectAllE c env.pages ms 0 []

/-- The scraper.py `scrape_company` function (lines 111-183): on success the
accumulated records truncated to `max_results`, on any internal exception an
empty list (`except Exception: ... return []`). -/
def scrapeCompany (c : String) (env : CrawlEnv) (cap ms : Nat) :
    List Employee :=
  match crawlResult c env cap ms with
  | Except.ok out => out.records.take cap
  | Except.error _ => []

/-- The run_scraper.py `scrape_company` function (lines 98-145). -/
def scrapeCompanyRS (c : String) (env : CrawlEnv) (cap ms : Nat) :
    List Employee :=
  match crawlResultRS c env ms with
  | Except.ok out => out.records.take cap
  | Except.error _ => []

/-- Whether an Except value is an error. -/
def isErr {α β : Type} : Except α β → Bool
  | Except.error _ => true
  | Except.ok _ => false

/-- Error-free browser oracle built from a pure page function. -/
def cleanPages (ps : Nat → List Card) :
    Nat → Except ScrapeError (List Card) :=
  fun k => Except.ok (ps k)

/-- Crawl environment in which every browser operation succeeds. -/
def pureEnv (ps : Nat → List Card) : CrawlEnv :=
  { navigationOk := true, peopleTabOk := true, pages := cleanPages ps }

/-- Pure projection of `collectE` under an error-free oracle. -/
def collectP (c : String) (ps : Nat → List Card) (cap : Nat) :
    Nat → Nat → List Employee → CrawlOut
  | 0, k, acc => ⟨acc, k⟩
  | fuel + 1, k, acc =>
    let acc2 := acc ++ (ps k).filterMap (extractCard c)
    if cap ≤ acc2.length then ⟨acc2, k + 1⟩
    else collectP c ps cap fuel (k + 1) acc2

/-- Pure projection of `collectAllE` under an error-free oracle. -/
def collectAllP (c : String) (ps : Nat → List Card) :
    Nat → Nat → List Employee → CrawlOut
  | 0, k, acc => ⟨acc, k⟩
  | fuel + 1, k, acc =>
    collectAllP c ps fuel (k + 1) (acc ++ (ps k).filterMap (extractCard c))

/-- Extraction of the cards rendered at one reveal step. -/
def stepExtract (c : String) (ps : Nat → List Card) (k : Nat) :
    List Employee :=
  (ps k).filterMap (extractCard c)

/-- Concatenated extraction of reveal steps k, k+1, ..., k+m-1. -/
def seg (c : String) (ps : Nat → List Card) : Nat → Nat → List Employee
  | _, 0 => []
  | k, m + 1 => stepExtract c ps k ++ seg c ps (k + 1) m

/-- The per-company cycle of run_scraper.py `main` (lines 248-267) threading
the committed store and the running change total: scrape, diff, and save
only when the change list is non-empty.  Database operations inside the
batch are assumed not to fail (the claim under study concerns crawl
failures). -/
def runBatch (cap ms now : Nat) :
    List (String × CrawlEnv) → List JobChange × Nat → List JobChange × Nat
  | [], st => st
  | p :: rest, st =>
    let emps := scrapeCompanyRS p.1 p.2 cap ms
    let changes := processChanges st.1 now emps
    let st2 := if changes.isEmpty then st
               else (savePure st.1 changes, st.2 + changes.length)
    runBatch cap ms now rest st2

/-- Failures observable inside a whole batch run. -/
inductive RunError
  | setupFailed
  | authFailed
  | saveFailed
deriving Repr, DecidableEq

/-- Environment of one `scrape_multiple_companies` call (scraper.py lines
185-215): whether `setup_driver` succeeds (the driver field is assigned only
on success), whether `login` succeeds, whether `driver.quit()` raises during
teardown, and the per-company crawl oracles. -/
structure MultiEnv where
  setupOk : Bool
  loginOk : Bool
  quitRaises : Bool
  companies : List (String × CrawlEnv)

/-- Observable outcome of `scrape_multiple_companies`: the returned list,
how many times `driver.quit()` was attempted by the `finally: self.close()`
teardown, and whether an exception escapes the call (only possible from the
unguarded `quit()` inside `close`, scraper.py lines 217-221). -/
structure MultiOut where
  result : List Employee
  quitCalls : Nat
  raised : Bool

/-- The `scrape_multiple_companies` function (scraper.py lines 185-215):
the try body runs setup, login and the per-company loop (`scrape_company`
itself never raises); the except handler returns the partial list; the
finally block always runs `close()`, which calls `driver.quit()` exactly
when a driver was acquired — unguarded, so a quit failure propagates. -/
def scrapeMultiple (env : MultiEnv) (cap ms : Nat) : MultiOut :=
  let body : Except RunError (List Employee) :=
    if env.setupOk = false then Except.error RunError.setupFailed
    else if env.loginOk = false then Except.error RunError.authFailed
    else Except.ok (env.companies.foldl
      (fun acc p => acc ++ scrapeCompany p.1 p.2 cap ms) [])
  let handled : List Employee :=
    match body with
    | Except.ok r => r
    | Except.error _ => []
  { result := handled
    quitCalls := if env.setupOk then 1 else 0
    raised := env.setupOk && env.quitRaises }

/-- Environment of one `show_scrape_page` run (.github/workflows/app.py
lines 288-316): whether the `LinkedInScraper()` constructor (which runs
`setup_driver`) succeeds, whether `login` succeeds, and whether
`save_job_changes` raises for some company index below `nCompanies`. -/
structure PageEnv where
  setupOk : Bool
  loginOk : Bool
  saveFailAt : Option Nat
  nCompanies : Nat
deriving Repr, DecidableEq

/-- Body of the `try` block of `show_scrape_page` up to and excluding the
final `scraper.close()` call: construct the scraper, log in, then run the
per-company scrape/process/save loop (`scrape_company` never raises, so the
only loop failure point is `save_job_changes`). -/
def showScrapePageBody (env : PageEnv) : Except RunError Unit :=
  if env.setupOk = false then Except.error RunError.setupFailed
  else if env.loginOk = false then Except.error RunError.authFailed
  else
    match env.saveFailAt with
    | some i =>
      if i < env.nCompanies then Except.error RunError.saveFailed
      else Except.ok ()
    | none => Except.ok ()

/-- Number of times `show_scrape_page` runs `scraper.close()`: the call
sits at the end of the `try` block (line 311) and the `except` branch only
reports the error, so teardown runs exactly when the whole body succeeds. -/
def showScrapePageReleases (env : PageEnv) : Nat :=
  match showScrapePageBody env with
  | Except.ok _ => 1
  | Except.error _ => 0

/-- Claim C3 as stated: every row persisted by `save_job_changes` has
`is_new` true exactly when `old_position` is absent. -/
def claimC3 : Prop :=
  ∀ (store : List JobChange) (changes : List Change) (r : JobChange),
    r ∈ savePure store changes → (r.is_new = true ↔ r.old_position = none)

/-- Claim C4 as stated: the record list returned by a crawl pass contains
each profile identifier at most once. -/
def claimC4 : Prop :=
  ∀ (c : String) (ps : Nat → List Card) (cap ms : Nat),
    ((scrapeCompany c (pureEnv ps) cap ms).map
      (fun e => e.profile_url)).Nodup

/-- Claim C5 as stated, for the run_scraper.py implementation: the result is
capped, at most `ms` reveal steps run, and the loop stops early once the
accumulated record count reaches the cap (if the extraction of the first
j+1 steps already holds `cap` records, no step beyond j+1 executes). -/
def claimC5 : Prop :=
  ∀ (c : String) (ps : Nat → List Card) (ms cap : Nat),
    (scrapeCompanyRS c (pureEnv ps) cap ms).length ≤ cap ∧
    (collectAllP c ps ms 0 []).steps ≤ ms ∧
    (∀ j, j + 1 ≤ ms → cap ≤ (seg c ps 0 (j + 1)).length →
      (collectAllP c ps ms 0 []).steps ≤ j + 1)

/-- Claim C8 as stated: on every exit path of a batch run the acquired
session is released exactly once (in particular `show_scrape_page` releases
whenever a driver was acquired), and the release never propagates an
exception (no `scrape_multiple_companies` run raises out of teardown). -/
def claimC8 : Prop :=
  (∀ env : PageEnv, env.setupOk = true → showScrapePageReleases env = 1) ∧
  (∀ (env : MultiEnv) (cap ms : Nat),
    (scrapeMultiple env cap ms).raised = false)

/-- Claim C9 as stated: the change detector's comparison baseline is the
stored row with the latest `change_date` — its classification coincides
with the latest-baseline classifier on every store. -/
def claimC9 : Prop :=
  ∀ (store : List JobChange) (now : Nat) (e : Employee),
    classifyEmployee store now e = classifySpec store now e

/-- Concrete well-formed card used in examples and counterexamples. -/
def goodCard : Card :=
  { titleText := some "Alice", primarySubtitle := some "Engineer",
    linkHref := some "P1" }

/-- Concrete card missing its required name field. -/
def badCard : Card :=
  { titleText := none, primarySubtitle := some "Engineer",
    linkHref := some "P2" }

/-- Concrete crawl environment whose navigation step fails. -/
def badCrawlEnv : CrawlEnv :=
  { navigationOk := false, peopleTabOk := true,
    pages := fun _ => Except.ok [] }

/-- Concrete stored row: Alice first seen as Engineer. -/
def engRow : JobChange :=
  { name := "Alice", company := "OrgX", old_position := none,
    new_position := "Engineer", change_date := 1, profile_url := "P1",
    is_new := true }

/-- Concrete role-change event: Alice promoted to Senior Engineer. -/
def promoChange : Change :=
  { name := "Alice", company := "OrgX", old_position := some "Engineer",
    new_position := "Senior Engineer", change_date := 2,
    profile_url := "P1" }

/-- Concrete store holding two rows for the same identity, the later row
carrying the later change_date and the current role. -/
def twoRowStore : List JobChange :=
  [{ name := "Alice", company := "OrgX", old_position := none,
     new_position := "Engineer", change_date := 1, profile_url := "P1",
     is_new := true },
   { name := "Alice", company := "OrgX", old_position := some "Engineer",
     new_position := "Senior Engineer", change_date := 2,
     profile_url := "P1", is_new := false }]

/-- Concrete single-row store with a unique identity. -/
def oneRowStore : List JobChange :=
  [{ name := "Bob", company := "OrgY", old_position := none,
     new_position := "Manager", change_date := 3, profile_url := "P9",
     is_new := true }]

/-! Helper lemmas shared by the claim theorems. -/

theorem processChanges_eq_filterMap (store : List JobChange) (now : Nat)
    (emps : List Employee) :
    processChanges store now emps = emps.filterMap (classifyEmployee store now) := by
  induction emps with
  | nil => rfl
  | cons e rest ih =>
    cases h : classifyEmployee store now e <;>
      simp [processChanges, List.filterMap_cons, h, ih]

theorem classifyEmployee_old_ne_new (store : List JobChange) (now : Nat)
    (e : Employee) (ev : Change)
    (h : classifyEmployee store now e = some ev) :
    ev.old_position ≠ some ev.new_position := by
  unfold classifyEmployee at h
  split at h
  next existing heq =>
    split at h
    next hne =>
      cases h
      simpa using hne
    next hne =>
      cases h
  next heq =>
    cases h
    simp

theorem matches_matches_same {n c u : String} {a b : JobChange}
    (ha : matchesKey n c u a = true) (hb : matchesKey n c u b = true) :
    sameIdentity a b = true := by
  simp only [matchesKey, Bool.and_eq_true, beq_iff_eq] at ha hb
  obtain ⟨⟨ha1, ha2⟩, ha3⟩ := ha
  obtain ⟨⟨hb1, hb2⟩, hb3⟩ := hb
  simp [sameIdentity, ha1, ha2, ha3, hb1, hb2, hb3]

theorem latestMatch_of_no_match {store : List JobChange} {n c u : String}
    (h : ∀ x ∈ store, matchesKey n c u x = false) :
    latestMatch store n c u = none := by
  induction store with
  | nil => rfl
  | cons r rest ih =>
    have hrest : latestMatch rest n c u = none :=
      ih (fun x hx => h x (List.mem_cons_of_mem r hx))
    simp [latestMatch, hrest, h r (List.mem_cons_self r rest)]

theorem latestMatch_eq_queryFirst {store : List JobChange}
    (h : uniqueIdentities store = true) (n c u : String) :
    latestMatch store n c u = queryFirst store n c u := by
  induction store with
  | nil => rfl
  | cons r rest ih =>
    have h2 : rest.all (fun x => !(sameIdentity r x)) = true ∧
        uniqueIdentities rest = true := by
      simpa [uniqueIdentities, Bool.and_eq_true] using h
    by_cases hr : matchesKey n c u r = true
    · have hnone : ∀ x ∈ rest, matchesKey n c u x = false := by
        intro x hx
        by_contra hcon
        have hx2 : matchesKey n c u x = true := by
          cases hmx : matchesKey n c u x with
          | true => rfl
          | false => exact absurd hmx hcon
        have hsame := matches_matches_same hr hx2
        have hall := (List.all_eq_true.mp h2.1) x hx
        rw [hsame] at hall
        simp at hall
      have hrest := latestMatch_of_no_match hnone
      simp [latestMatch, hrest, hr, queryFirst, List.find?_cons_of_pos _ hr]
    · have hrb : matchesKey n c u r = false := by
        cases hmx : matchesKey n c u r with
        | true => exact absurd hmx hr
        | false => rfl
      have ihr := ih h2.2
      have hq : queryFirst (r :: rest) n c u = queryFirst rest n c u := by
        simp [queryFirst, List.find?_cons_of_neg _ hr]
      rw [hq, ← ihr]
      cases hlm : latestMatch rest n c u <;> simp [latestMatch, hlm, hrb]

theorem saveLoopE_ok {env : DbEnv} {store : List JobChange}
    {changes : List Change} :
    ∀ {i : Nat} {pending p : List JobChange},
      saveLoopE env store i pending changes = Except.ok p →
      p = pending ++ newInserts store changes := by
  induction changes with
  | nil =>
    intro i pending p h
    cases h
    simp [newInserts]
  | cons c rest ih =>
    intro i pending p h
    unfold saveLoopE at h
    by_cases hf : env.queryFailAt = some i
    · rw [if_pos hf] at h
      cases h
    · rw [if_neg hf] at h
      cases hq : queryFirst store c.name c.company c.profile_url with
      | some x =>
        rw [hq] at h
        rw [ih h]
        simp [newInserts, hq]
      | none =>
        rw [hq] at h
        rw [ih h]
        simp [newInserts, hq]

theorem mem_newInserts {store : List JobChange} {changes : List Change}
    {r : JobChange} (h : r ∈ newInserts store changes) :
    ∃ c ∈ changes, r = mkJobChange c := by
  induction changes with
  | nil => simp [newInserts] at h
  | cons c rest ih =>
    unfold newInserts at h
    cases hq : queryFirst store c.name c.company c.profile_url with
    | some x =>
      rw [hq] at h
      obtain ⟨d, hd, hr⟩ := ih h
      exact ⟨d, List.mem_cons_of_mem c hd, hr⟩
    | none =>
      rw [hq] at h
      rcases List.mem_cons.mp h with hr | hr
      · exact ⟨c, List.mem_cons_self c rest, hr⟩
      · obtain ⟨d, hd, hrr⟩ := ih hr
        exact ⟨d, List.mem_cons_of_mem c hd, hrr⟩

theorem length_filterMap_all_some {α β : Type} (f : α → Option β) :
    ∀ (l : List α), (∀ x ∈ l, (f x).isSome = true) →
      (l.filterMap f).length = l.length := by
  intro l
  induction l with
  | nil => intro _; rfl
  | cons a rest ih =>
    intro h
    have ha := h a (List.mem_cons_self a rest)
    cases hf : f a with
    | none => rw [hf] at ha; simp at ha
    | some b =>
      simp [List.filterMap_cons, hf,
        ih (fun x hx => h x (List.mem_cons_of_mem a hx))]

theorem collectE_clean (c : String) (ps : Nat → List Card) (cap : Nat) :
    ∀ (fuel k : Nat) (acc : List Employee),
      collectE c (cleanPages ps) cap fuel k acc =
        Except.ok (collectP c ps cap fuel k acc) := by
  intro fuel
  induction fuel with
  | zero => intro k acc; rfl
  | succ fuel ih =>
    intro k acc
    simp only [collectE, collectP, cleanPages]
    split
    · rfl
    · exact ih (k + 1) _

theorem collectAllE_clean (c : String) (ps : Nat → List Card) :
    ∀ (fuel k : Nat) (acc : List Employee),
      collectAllE c (cleanPages ps) fuel k acc =
        Except.ok (collectAllP c ps fuel k acc) := by
  intro fuel
  induction fuel with
  | zero => intro k acc; rfl
  | succ fuel ih =>
    intro k acc
    simp only [collectAllE, collectAllP, cleanPages]
    exact ih (k + 1) _

theorem collectAllP_spec (c : String) (ps : Nat → List Card) :
    ∀ (fuel k : Nat) (acc : List Employee),
      collectAllP c ps fuel k acc = ⟨acc ++ seg c ps k fuel, k + fuel⟩ := by
  intro fuel
  induction fuel with
  | zero => intro k acc; simp [collectAllP, seg]
  | succ fuel ih =>
    intro k acc
    simp only [collectAllP, seg, ih (k + 1), CrawlOut.mk.injEq]
    refine ⟨by simp [stepExtract, List.append_assoc], by omega⟩

theorem collectP_steps_le (c : String) (ps : Nat → List Card) (cap : Nat) :
    ∀ (fuel k : Nat) (acc : List Employee),
      (collectP c ps cap fuel k acc).steps ≤ k + fuel := by
  intro fuel
  induction fuel with
  | zero => intro k acc; simp [collectP]
  | succ fuel ih =>
    intro k acc
    simp only [collectP]
    split
    · simp
    · have := ih (k + 1) (acc ++ (ps k).filterMap (extractCard c))
      omega

theorem collectP_early_stop (c : String) (ps : Nat → List Card) (cap : Nat) :
    ∀ (j fuel k : Nat) (acc : List Employee), j + 1 ≤ fuel →
      cap ≤ (acc ++ seg c ps k (j + 1)).length →
      (collectP c ps cap fuel k acc).steps ≤ k + j + 1 := by
  intro j
  induction j with
  | zero =>
    intro fuel k acc hfuel hcap
    cases fuel with
    | zero => omega
    | succ fuel =>
      simp only [seg, stepExtract, List.append_nil] at hcap
      simp only [collectP]
      rw [if_pos hcap]
  | succ j ih =>
    intro fuel k acc hfuel hcap
    cases fuel with
    | zero => omega
    | succ fuel =>
      simp only [collectP]
      split
      · simp
      · have hseg : acc ++ seg c ps k (j + 2) =
            (acc ++ stepExtract c ps k) ++ seg c ps (k + 1) (j + 1) := by
          simp [seg, List.append_assoc]
        rw [hseg] at hcap
        have := ih fuel (k + 1) (acc ++ stepExtract c ps k) (by omega) hcap
        simp only [stepExtract] at this
        omega

theorem seg_count (c : String) (ps : Nat → List Card) (e : Employee) :
    ∀ (m k : Nat),
      (seg c ps k m).count e =
        ((List.range m).map
          (fun j => (stepExtract c ps (k + j)).count e)).sum := by
  intro m
  induction m with
  | zero => intro k; simp [seg]
  | succ m ih =>
    intro k
    rw [seg, List.count_append, ih (k + 1), List.range_succ_eq_map]
    simp only [List.map_cons, List.sum_cons, List.map_map, Nat.add_zero]
    congr 1
    refine congrArg List.sum (List.map_congr_left ?_)
    intro j _
    have hkj : k + 1 + j = k + (j + 1) := by omega
    simp [Function.comp, Nat.succ_eq_add_one, hkj]

/-! Claim theorems. -/

/-- Claim C1: on a store satisfying the unique-identity invariant (at most
one row per identity, which the spec assumes of the record store), the
change detector emits a change for an employee exactly when no stored row
matches the identity or the latest stored role differs from the observed
role; an employee whose latest stored role equals the observed role yields
no event; and no emitted event has `old_position` equal to
`new_position`. -/
theorem detector_emits_iff_new_or_changed (store : List JobChange)
    (now : Nat) (huniq : uniqueIdentities store = true) :
    (∀ emps : List Employee,
      processChanges store now emps =
        emps.filterMap (classifyEmployee store now)) ∧
    (∀ e : Employee,
      (classifyEmployee store now e).isSome = true ↔
        (latestMatch store e.name e.company e.profile_url = none ∨
         ∃ r, latestMatch store e.name e.company e.profile_url = some r ∧
           r.new_position ≠ e.position)) ∧
    (∀ (e : Employee) (r : JobChange),
      latestMatch store e.name e.company e.profile_url = some r →
      r.new_position = e.position → classifyEmployee store now e = none) ∧
    (∀ (emps : List Employee) (ev : Change),
      ev ∈ processChanges store now emps →
        ev.old_position ≠ some ev.new_position) := by
  refine ⟨fun emps => processChanges_eq_filterMap store now emps, ?_, ?_, ?_⟩
  · intro e
    rw [latestMatch_eq_queryFirst huniq]
    cases hq : queryFirst store e.name e.company e.profile_url with
    | none => simp [classifyEmployee, hq]
    | some ex =>
      by_cases hne : ex.new_position = e.position
      · simp [classifyEmployee, hq, hne]
      · simp [classifyEmployee, hq, hne]
  · intro e r hl hr
    rw [latestMatch_eq_queryFirst huniq] at hl
    simp [classifyEmployee, hl, hr]
  · intro emps ev hmem
    rw [processChanges_eq_filterMap] at hmem
    obtain ⟨e, _, hce⟩ := List.mem_filterMap.mp hmem
    exact classifyEmployee_old_ne_new store now e ev hce

/-- Witness for C1: the unique-identity hypothesis is satisfiable and the
theorem applies to a concrete one-row store. -/
theorem detector_emits_iff_new_or_changed_witness :
    uniqueIdentities oneRowStore = true ∧
    ((∀ emps : List Employee,
      processChanges oneRowStore 7 emps =
        emps.filterMap (classifyEmployee oneRowStore 7)) ∧
    (∀ e : Employee,
      (classifyEmployee oneRowStore 7 e).isSome = true ↔
        (latestMatch oneRowStore e.name e.company e.profile_url = none ∨
         ∃ r, latestMatch oneRowStore e.name e.company e.profile_url = some r ∧
           r.new_position ≠ e.position)) ∧
    (∀ (e : Employee) (r : JobChange),
      latestMatch oneRowStore e.name e.company e.profile_url = some r →
      r.new_position = e.position → classifyEmployee oneRowStore 7 e = none) ∧
    (∀ (emps : List Employee) (ev : Change),
      ev ∈ processChanges oneRowStore 7 emps →
        ev.old_position ≠ some ev.new_position)) :=
  ⟨by decide, detector_emits_iff_new_or_changed oneRowStore 7 (by decide)⟩

/-- Claim C9 counterexample: on a store holding two rows for the same
identity, the code's `.first()` lookup compares against the earlier row, not
the row with the latest change_date — the detector re-emits a change the
latest-baseline classifier would suppress. -/
theorem detector_latest_baseline_counterexample : ¬ claimC9 := by
  intro h
  have := h twoRowStore 9
    { name := "Alice", company := "OrgX", position := "Senior Engineer",
      profile_url := "P1" }
  revert this
  decide

/-- Claim C9 amended: the detector's comparison baseline is the first
matching row in store order (the identity query has no ordering), which
coincides with the latest-change_date baseline exactly on stores satisfying
the unique-identity invariant. -/
theorem detector_baseline_is_first_match (store : List JobChange)
    (now : Nat) (e : Employee) :
    (∀ r, queryFirst store e.name e.company e.profile_url = some r →
      classifyEmployee store now e =
        (if r.new_position ≠ e.position then
          some { name := e.name, company := e.company,
                 old_position := some r.new_position,
                 new_position := e.position, change_date := now,
                 profile_url := e.profile_url }
         else none)) ∧
    (uniqueIdentities store = true →
      classifyEmployee store now e = classifySpec store now e) := by
  constructor
  · intro r hr
    simp [classifyEmployee, hr]
  · intro huniq
    unfold classifyEmployee classifySpec
    rw [latestMatch_eq_queryFirst huniq]
    cases hq : queryFirst store e.name e.company e.profile_url <;> simp [hq]

/-- Witness for the amended C9: on a concrete unique-identity store the
code's classifier and the latest-baseline classifier agree. -/
theorem detector_baseline_is_first_match_witness :
    uniqueIdentities oneRowStore = true ∧
    classifyEmployee oneRowStore 5
      { name := "Bob", company := "OrgY", position := "Director",
        profile_url := "P9" } =
    classifySpec oneRowStore 5
      { name := "Bob", company := "OrgY", position := "Director",
        profile_url := "P9" } :=
  ⟨by decide,
   (detector_baseline_is_first_match oneRowStore 5
      { name := "Bob", company := "OrgY", position := "Director",
        profile_url := "P9" }).2 (by decide)⟩

/-- Claim C2 (code-bug evidence): the store no-ops on any event whose
identity already has a stored row, even though the event's new role differs
from every stored role for that identity — a genuine role-change event is
silently dropped, so the promoted role is never persisted. -/
theorem store_drops_changed_role_event :
    (∀ r ∈ [engRow], matchesKey promoChange.name promoChange.company
        promoChange.profile_url r = true) ∧
    (∀ r ∈ [engRow], r.new_position ≠ promoChange.new_position) ∧
    savePure [engRow] [promoChange] = [engRow] ∧
    saveJobChanges { queryFailAt := none, commitOk := true } [engRow]
        [promoChange] = (Except.ok (), [engRow]) := by
  refine ⟨by decide, by decide, by decide, rfl⟩

/-- Claim C3 counterexample: `save_job_changes` never sets `is_new`, so a
row inserted from an event carrying an old role still gets the column
default `is_new = true` — the biconditional `is_new` iff absent old role
fails on the persisted row. -/
theorem persisted_is_new_counterexample : ¬ claimC3 := by
  intro h
  have := (h [] [promoChange] (mkJobChange promoChange) (by decide)).mp
    (by decide)
  revert this
  decide

/-- Claim C3 amended: every row `save_job_changes` inserts carries the
schema default `is_new = true`, regardless of whether `old_position` is
present; rows already in the store are left untouched. -/
theorem persisted_rows_default_is_new (store : List JobChange)
    (changes : List Change) :
    (∀ r ∈ newInserts store changes, r.is_new = true) ∧
    (∀ r ∈ savePure store changes, r ∈ store ∨ r.is_new = true) := by
  constructor
  · intro r hr
    obtain ⟨c, _, hc⟩ := mem_newInserts hr
    rw [hc]
    rfl
  · intro r hr
    unfold savePure at hr
    rcases List.mem_append.mp hr with h | h
    · exact Or.inl h
    · right
      obtain ⟨c, _, hc⟩ := mem_newInserts h
      rw [hc]
      rfl

/-- Witness for the amended C3: a concrete inserted row has the default
`is_new = true`. -/
theorem persisted_rows_default_is_new_witness :
    mkJobChange promoChange ∈ newInserts [] [promoChange] ∧
    (mkJobChange promoChange).is_new = true :=
  ⟨by decide,
   (persisted_rows_default_is_new [] [promoChange]).1
     (mkJobChange promoChange) (by decide)⟩

/-- Claim C4 counterexample: a card rendered at two reveal steps is emitted
twice — the crawl performs no deduplication by profile identifier. -/
theorem crawl_dedup_counterexample : ¬ claimC4 := by
  intro h
  have := h "OrgX" (fun _ => [goodCard]) 10 2
  revert this
  decide

/-- Claim C4 amended: the collection performs no intra-pass dedup — before
the cap is applied, a record's multiplicity in the collected list is the sum
of its multiplicities across the reveal steps, so a card captured in an
earlier step is emitted again at every later step that renders it. -/
theorem crawl_reemits_across_steps (c : String) (ps : Nat → List Card)
    (ms : Nat) (e : Employee) :
    (collectAllP c ps ms 0 []).records = seg c ps 0 ms ∧
    ((collectAllP c ps ms 0 []).records).count e =
      ((List.range ms).map (fun k => (stepExtract c ps k).count e)).sum := by
  have hs := collectAllP_spec c ps ms 0 []
  constructor
  · rw [hs]
    simp
  · rw [hs]
    simpa using seg_count c ps e ms 0

/-- Claim C5 counterexample: the run_scraper.py scroll loop has no early
break — with cap 1 already reached after the first reveal step, all five
steps still execute. -/
theorem cap_early_stop_counterexample : ¬ claimC5 := by
  intro h
  have := (h "OrgX" (fun _ => [goodCard]) 5 1).2.2 0 (by decide) (by decide)
  revert this
  decide

/-- Claim C5 amended: both scrape_company implementations return at most
`cap` records and execute at most `ms` reveal steps, truncating the final
result to the cap; the scraper.py loop additionally stops early once the
accumulated record count reaches the cap, while the run_scraper.py loop
always executes exactly `ms` reveal steps. -/
theorem crawl_cap_and_steps (c : String) (ps : Nat → List Card)
    (cap ms : Nat) :
    (scrapeCompany c (pureEnv ps) cap ms).length ≤ cap ∧
    (scrapeCompanyRS c (pureEnv ps) cap ms).length ≤ cap ∧
    scrapeCompany c (pureEnv ps) cap ms =
      (collectP c ps cap ms 0 []).records.take cap ∧
    scrapeCompanyRS c (pureEnv ps) cap ms =
      (collectAllP c ps ms 0 []).records.take cap ∧
    (collectP c ps cap ms 0 []).steps ≤ ms ∧
    (collectAllP c ps ms 0 []).steps = ms ∧
    (∀ j, j + 1 ≤ ms → cap ≤ (seg c ps 0 (j + 1)).length →
      (collectP c ps cap ms 0 []).steps ≤ j + 1) := by
  have hS : scrapeCompany c (pureEnv ps) cap ms =
      (collectP c ps cap ms 0 []).records.take cap := by
    simp [scrapeCompany, crawlResult, pureEnv, collectE_clean]
  have hRS : scrapeCompanyRS c (pureEnv ps) cap ms =
      (collectAllP c ps ms 0 []).records.take cap := by
    simp [scrapeCompanyRS, crawlResultRS, pureEnv, collectAllE_clean]
  refine ⟨?_, ?_, hS, hRS, ?_, ?_, ?_⟩
  · rw [hS, List.length_take]
    exact min_le_left _ _
  · rw [hRS, List.length_take]
    exact min_le_left _ _
  · simpa using collectP_steps_le c ps cap ms 0 []
  · rw [collectAllP_spec]
    simp
  · intro j hj hcap
    have := collectP_early_stop c ps cap j ms 0 [] hj (by simpa using hcap)
    simpa using this

/-- Witness for the amended C5: the early-stop conjunct applies at a
concrete input where the cap is reached after the first reveal step. -/
theorem crawl_cap_and_steps_witness :
    (0 + 1 ≤ 3 ∧ 1 ≤ (seg "OrgX" (fun _ => [goodCard]) 0 (0 + 1)).length) ∧
    (collectP "OrgX" (fun _ => [goodCard]) 1 3 0 []).steps ≤ 0 + 1 :=
  ⟨⟨by decide, by decide⟩,
   (crawl_cap_and_steps "OrgX" (fun _ => [goodCard]) 1 3).2.2.2.2.2.2 0
     (by decide) (by decide)⟩

/-- Claim C7: a reveal step whose rendered cards contain exactly one card
missing a required field yields one record per well-formed card — the
malformed card is skipped and the organization's crawl returns the valid
records instead of aborting. -/
theorem malformed_card_skipped (c : String) (pre post : List Card)
    (bad : Card) (cap : Nat)
    (hpre : ∀ x ∈ pre, (extractCard c x).isSome = true)
    (hpost : ∀ x ∈ post, (extractCard c x).isSome = true)
    (hbad : extractCard c bad = none)
    (hcap : (pre ++ bad :: post).length ≤ cap) :
    ((pre ++ bad :: post).filterMap (extractCard c)).length =
      (pre ++ bad :: post).length - 1 ∧
    scrapeCompany c
      { navigationOk := true, peopleTabOk := true,
        pages := cleanPages (fun _ => pre ++ bad :: post) } cap 1 =
      (pre ++ bad :: post).filterMap (extractCard c) := by
  have hlen : ((pre ++ bad :: post).filterMap (extractCard c)).length =
      pre.length + post.length := by
    rw [List.filterMap_append, List.length_append,
      length_filterMap_all_some _ pre hpre,
      List.filterMap_cons_none hbad,
      length_filterMap_all_some _ post hpost]
  constructor
  · rw [hlen]
    simp only [List.length_append, List.length_cons]
    omega
  · have hrun : scrapeCompany c
        { navigationOk := true, peopleTabOk := true,
          pages := cleanPages (fun _ => pre ++ bad :: post) } cap 1 =
        (collectP c (fun _ => pre ++ bad :: post) cap 1 0 []).records.take
          cap := by
      simp [scrapeCompany, crawlResult, collectE_clean]
    have hrec : (collectP c (fun _ => pre ++ bad :: post) cap 1 0
        []).records = (pre ++ bad :: post).filterMap (extractCard c) := by
      simp only [collectP]
      split <;> simp [collectP]
    rw [hrun, hrec]
    apply List.take_of_length_le
    rw [hlen]
    simp only [List.length_append, List.length_cons] at hcap
    omega

/-- Witness for C7: concrete page with one malformed card among two
well-formed ones yields exactly two records and the crawl succeeds. -/
theorem malformed_card_skipped_witness :
    ((∀ x ∈ [goodCard], (extractCard "OrgX" x).isSome = true) ∧
      extractCard "OrgX" badCard = none ∧
      ([goodCard] ++ badCard :: [goodCard]).length ≤ 3) ∧
    ((([goodCard] ++ badCard :: [goodCard]).filterMap
        (extractCard "OrgX")).length =
      ([goodCard] ++ badCard :: [goodCard]).length - 1 ∧
    scrapeCompany "OrgX"
      { navigationOk := true, peopleTabOk := true,
        pages := cleanPages (fun _ => [goodCard] ++ badCard :: [goodCard]) }
      3 1 =
      ([goodCard] ++ badCard :: [goodCard]).filterMap (extractCard "OrgX")) :=
  ⟨⟨by decide, by decide, by decide⟩,
   malformed_card_skipped "OrgX" [goodCard] [goodCard] badCard 3
     (by decide) (by decide) (by decide) (by decide)⟩

/-- Claim C6: when the crawl body of an organization fails internally
(navigation, tab click, or a reveal step), `scrape_company` returns an
empty list instead of raising — in both implementations — and running the
batch with that organization in the middle produces exactly the store and
change total of the batch without it: earlier organizations' persisted
events are untouched and every later organization is still attempted. -/
theorem crawl_failure_isolated (cap ms now : Nat) (n : String)
    (env : CrawlEnv) (pre post : List (String × CrawlEnv))
    (store : List JobChange) (total : Nat)
    (h : isErr (crawlResultRS n env ms) = true) :
    scrapeCompanyRS n env cap ms = [] ∧
    (∀ (c2 : String) (env2 : CrawlEnv) (cap2 ms2 : Nat),
      isErr (crawlResult c2 env2 cap2 ms2) = true →
      scrapeCompany c2 env2 cap2 ms2 = []) ∧
    runBatch cap ms now (pre ++ (n, env) :: post) (store, total) =
      runBatch cap ms now (pre ++ post) (store, total) := by
  have hrs : scrapeCompanyRS n env cap ms = [] := by
    cases hcr : crawlResultRS n env ms with
    | error e => simp [scrapeCompanyRS, hcr]
    | ok out => rw [hcr] at h; simp [isErr] at h
  refine ⟨hrs, ?_, ?_⟩
  · intro c2 env2 cap2 ms2 h2
    cases hcr : crawlResult c2 env2 cap2 ms2 with
    | error e => simp [scrapeCompany, hcr]
    | ok out => rw [hcr] at h2; simp [isErr] at h2
  · induction pre generalizing store total with
    | nil =>
      simp only [List.nil_append, runBatch, hrs, processChanges]
      simp
    | cons q rest ih =>
      simp only [List.cons_append, runBatch]
      exact ih _ _

/-- Witness for C6: a concrete environment whose navigation fails yields an
empty per-organization result and an unchanged batch outcome. -/
theorem crawl_failure_isolated_witness :
    isErr (crawlResultRS "OrgX" badCrawlEnv 5) = true ∧
    (scrapeCompanyRS "OrgX" badCrawlEnv 10 5 = [] ∧
    (∀ (c2 : String) (env2 : CrawlEnv) (cap2 ms2 : Nat),
      isErr (crawlResult c2 env2 cap2 ms2) = true →
      scrapeCompany c2 env2 cap2 ms2 = []) ∧
    runBatch 10 5 0 ([] ++ ("OrgX", badCrawlEnv) :: []) ([], 0) =
      runBatch 10 5 0 ([] ++ []) ([], 0)) :=
  ⟨by decide,
   crawl_failure_isolated 10 5 0 "OrgX" badCrawlEnv [] [] [] 0 (by decide)⟩

/-- Claim C10: a `save_job_changes` call is all-or-nothing — on success the
committed store gains exactly the batch's inserts in one step, and on any
error (a query raising mid-loop or the commit raising) the rollback leaves
the committed store unchanged and the error is surfaced to the caller. -/
theorem save_batch_atomic (env : DbEnv) (store : List JobChange)
    (changes : List Change) :
    ((saveJobChanges env store changes).1 = Except.ok () →
      (saveJobChanges env store changes).2 =
        store ++ newInserts store changes) ∧
    (∀ e, (saveJobChanges env store changes).1 = Except.error e →
      (saveJobChanges env store changes).2 = store) ∧
    ((saveJobChanges env store changes).2 = store ∨
      (saveJobChanges env store changes).2 =
        store ++ newInserts store changes) := by
  cases h : saveLoopE env store 0 [] changes with
  | error e => simp [saveJobChanges, h]
  | ok pending =>
    have hp : pending = newInserts store changes := by
      simpa using saveLoopE_ok h
    by_cases hc : env.commitOk
    · simp [saveJobChanges, h, hc, hp]
    · simp [saveJobChanges, h, hc]

/-- Witness for C10: a concrete failure-free call commits exactly the
batch's inserts. -/
theorem save_batch_atomic_witness :
    (saveJobChanges { queryFailAt := none, commitOk := true } []
        [promoChange]).1 = Except.ok () ∧
    (saveJobChanges { queryFailAt := none, commitOk := true } []
        [promoChange]).2 = [] ++ newInserts [] [promoChange] :=
  ⟨rfl,
   (save_batch_atomic { queryFailAt := none, commitOk := true } []
      [promoChange]).1 rfl⟩

/-- Claim C8 (code-bug evidence): `show_scrape_page` releases the session
only when its whole try body succeeds — an authentication failure or a
mid-batch save error skips `scraper.close()` entirely, so the acquired
driver is never released — and in `scrape_multiple_companies` the teardown
calls `driver.quit()` unguarded, so a quit failure propagates out of the
call; the finally-based variant does run its teardown exactly once on every
exit path. -/
theorem session_release_eval :
    showScrapePageReleases
      { setupOk := true, loginOk := false, saveFailAt := none,
        nCompanies := 0 } = 0 ∧
    showScrapePageReleases
      { setupOk := true, loginOk := true, saveFailAt := some 0,
        nCompanies := 1 } = 0 ∧
    (scrapeMultiple
      { setupOk := true, loginOk := true, quitRaises := true,
        companies := [] } 10 5).raised = true ∧
    (∀ env : MultiEnv, ∀ cap ms : Nat,
      (scrapeMultiple env cap ms).quitCalls =
        (if env.setupOk then 1 else 0)) ∧
    ¬ claimC8 := by
  refine ⟨rfl, rfl, rfl, fun env cap ms => rfl, ?_⟩
  intro h
  exact absurd
    (h.1 { setupOk := true, loginOk := false, saveFailAt := none,
           nCompanies := 0 } rfl)
    (by decide)

end JobTracker
